import Mathlib

set_option maxRecDepth 20000

/-!
Shallow embedding of the two profile-record extractors of this repository:
the research-grants fetcher (`ExpertResearchGrants`) and the Google Scholar
publications fetcher (`ScholarPublications`).

HTML documents are modelled as query functions: a grants document maps a CSS
selector to the list of the `textContent` strings of the matched elements; a
publications document maps a selector to a list of elements carrying their own
sub-queries.  String primitives (`trim`, `toLowerCase`, `includes`,
`split('\n')`, `substring`) are re-implemented structurally over `List Char`
so that every definition reduces in the kernel.
-/

/-- JavaScript `String.prototype.includes`-style check: is `pat` a contiguous
sublist at the head of `s`? (helper for substring search). -/
def startsWithChars : List Char → List Char → Bool
  | [], _ => true
  | _ :: _, [] => false
  | a :: as, b :: bs => a == b && startsWithChars as bs

/-- Does `pat` occur as a contiguous sublist of `s`?  Naive scan, mirroring
`String.prototype.includes`. -/
def containsChars (pat : List Char) : List Char → Bool
  | [] => startsWithChars pat []
  | c :: rest => startsWithChars pat (c :: rest) || containsChars pat rest

/-- `text.trim()` over a char list: drop whitespace from both ends. -/
def trimChars (l : List Char) : List Char :=
  ((l.dropWhile Char.isWhitespace).reverse.dropWhile Char.isWhitespace).reverse

/-- `text.split('\n')` over a char list; always returns at least one piece. -/
def splitNl : List Char → List (List Char)
  | [] => [[]]
  | c :: rest =>
    if c = '\n' then [] :: splitNl rest
    else
      match splitNl rest with
      | h :: t => (c :: h) :: t
      | [] => [[c]]

/-- String length as used by the source (`.length`); counts characters. -/
def lenS (s : String) : Nat := s.toList.length

/-- `text.trim()`. -/
def trimS (s : String) : String := (trimChars s.toList).asString

/-- `text.toLowerCase()` (ASCII case folding, as `Char.toLower`). -/
def lowerS (s : String) : String := (s.toList.map Char.toLower).asString

/-- `s.includes(pat)`: substring containment. -/
def includesS (s pat : String) : Bool := containsChars pat.toList s.toList

/-- `text.split('\n')`. -/
def splitLines (s : String) : List String := (splitNl s.toList).map List.asString

/-- `text.substring(0, n)`. -/
def takeS (s : String) (n : Nat) : String := (s.toList.take n).asString

/-- A research-grant record as assembled by `parseResearchGrants` /
`loadFallbackResearchGrants`. -/
structure GrantRecord where
  id : Nat
  title : String
  details : String
  type : String
  status : String
deriving DecidableEq

/-- The ordered selector list tried by `parseResearchGrants`. -/
def possibleSelectors : List String :=
  [".research-item", ".grant-item", "table tr", ".list-item", ".research-list li"]

/-- The keyword list of `isResearchGrantText`. -/
def researchKeywords : List String :=
  ["grant", "research", "project", "funding", "FRGS", "RACER", "LESTARI",
   "KPM", "UiTM", "fundamental", "special", "autonomous", "anomaly",
   "detection", "streaming", "data", "e-commerce", "rural", "products",
   "commercialization", "autism", "journey", "directory", "repository",
   "smart", "urban", "farming", "iot", "downtime", "analysis", "data centre",
   "high availability", "software", "application", "services", "fog devices",
   "radar", "reflectivity", "images", "convective", "stratiform", "tropical",
   "rainfall", "estimates"]

/-- `isResearchGrantText`: some keyword occurs case-insensitively in the text. -/
def isResearchGrantText (text : String) : Bool :=
  researchKeywords.any (fun keyword => includesS (lowerS text) (lowerS keyword))

/-- The non-empty lines of a text: `text.split('\n').filter(line =>
line.trim().length > 0)`. -/
def nonemptyLines (text : String) : List String :=
  (splitLines text).filter (fun line => 0 < lenS (trimS line))

/-- `extractTitle`: first non-empty line, trimmed, cut at 100 characters, with
an ellipsis marker when the (untrimmed) line is longer than 100; whole text
fallback when there is no non-empty line. -/
def extractTitle (text : String) : String :=
  match nonemptyLines text with
  | line0 :: _ => takeS (trimS line0) 100 ++ (if 100 < lenS line0 then "..." else "")
  | [] => takeS text 100 ++ (if 100 < lenS text then "..." else "")

/-- `extractType`: first matching category of the ordered keyword table. -/
def extractType (text : String) : String :=
  if includesS (lowerS text) "frgs" = true then "FRGS"
  else if includesS (lowerS text) "racer" = true then "RACER"
  else if includesS (lowerS text) "lestari" = true then "LESTARI"
  else if includesS (lowerS text) "kpm" = true then "KPM"
  else if includesS (lowerS text) "international" = true then "International"
  else if includesS (lowerS text) "national" = true then "National"
  else "Research Grant"

/-- `extractStatus`: "Completed" before "Active" (activity keyword or recent
year), else "Unknown". -/
def extractStatus (text : String) : String :=
  if includesS (lowerS text) "completed" = true then "Completed"
  else if (includesS (lowerS text) "active" || includesS (lowerS text) "ongoing") = true then
    "Active"
  else if (includesS (lowerS text) "2020" || includesS (lowerS text) "2021" ||
      includesS (lowerS text) "2022" || includesS (lowerS text) "2023" ||
      includesS (lowerS text) "2024" || includesS (lowerS text) "2025") = true then
    "Active"
  else "Unknown"

/-- One record of `parseResearchGrants`, built from the trimmed element text
and the id `this.researchGrants.length + 1`. -/
def grantRecordOf (id : Nat) (text : String) : GrantRecord :=
  { id := id
    title := extractTitle text
    details := text
    type := extractType text
    status := extractStatus text }

/-- The `elements.forEach` body of `parseResearchGrants`: trim the element
text, keep it when it is non-empty, longer than 10 characters and keyword
matching, and push a record numbered after the accumulator. -/
def grantsBody (acc : List GrantRecord) (el : String) : List GrantRecord :=
  let text := trimS el
  if text ≠ "" ∧ 10 < lenS text ∧ isResearchGrantText text = true then
    acc ++ [grantRecordOf (acc.length + 1) text]
  else acc

/-- The records produced from one selector's element texts. -/
def grantsScanElems (els : List String) : List GrantRecord :=
  els.foldl grantsBody []

/-- A parsed document, modelled as its `querySelectorAll` on element texts. -/
def GrantsDoc : Type := String → List String

/-- The first selector of the list matching at least one element wins; no
selector matching yields the empty element set. -/
def selectFirst {α : Type} (doc : String → List α) : List String → List α
  | [] => []
  | s :: rest => if 0 < (doc s).length then doc s else selectFirst doc rest

/-- The pre-fallback result of `parseResearchGrants`: records of the first
selector with a non-empty match. -/
def grantsScan (doc : GrantsDoc) : List GrantRecord :=
  grantsScanElems (selectFirst doc possibleSelectors)

/-- `loadFallbackResearchGrants`: the hardcoded 7-record dataset. -/
def fallbackResearchGrants : List GrantRecord :=
  [{ id := 1
     title := "Autonomous Anomaly Detection in Streaming Data"
     details := "KPM, Autonomous Anomaly Detection in Streaming Data, (Ref: RACER/1/2019/ICT02/UITM//4), Role: Team Member."
     type := "RACER"
     status := "Completed" },
   { id := 2
     title := "Web Based E Commerce System For Rural Products Commercialization In Pulau Tuba Langkawi"
     details := "UiTM LESTARI SDG@UiTM Grant, Web Based E Commerce System For Rural Products Commercialization In Pulau Tuba Langkawi, 600-RMC/LESTARI SDG-T 5/3 (142/2019), Role: Team Member."
     type := "LESTARI"
     status := "Completed" },
   { id := 3
     title := "AUTISM JOURNEY DIRECTORY & DATA REPOSITORY SYSTEM"
     details := "NASOM, AUTISM JOURNEY DIRECTORY & DATA REPOSITORY SYSTEM, Role: Team Member."
     type := "NASOM"
     status := "Completed" },
   { id := 4
     title := "Portable Iot-based Smart Urban Farming: Technology Use Case Of Uitm And Unikom Bandung"
     details := "Title : Portable Iot-based Smart Urban Farming: Technology Use Case Of Uitm And Unikom Bandung. Dr. Muhammad Izzad Bin Ramli, Profesor Dr Nursuriati Binti Jamil, Ts. Muhammad Azizi Bin Mohd Ariffin, 2021 - 2022, Other Grants, Project Member, RM 5,000.00"
     type := "Other Grants"
     status := "Completed" },
   { id := 5
     title := "Downtime Analysis For Uitm Data Centre"
     details := "Title : Downtime Analysis For Uitm Data Centre. Profesor Dr Jasni Binti Mohamad Zain, Profesor Madya Dr Kamarularifin Bin Abd Jalil, Ts. Muhammad Azizi Bin Mohd Ariffin, 2020 - 2023, Special Research Grant (GPK), Project Member, RM 20,000.00."
     type := "GPK"
     status := "Completed" },
   { id := 6
     title := "A New Technique To Ensure High Availability Of Software Application Services By Utilizing Fog Devices Resource Capabilities"
     details := "Title : A New Technique To Ensure High Availability Of Software Application Services By Utilizing Fog Devices Resource Capabilities. Profesor Dr Jasni Binti Mohamad Zain, Luhur Bayuaji, Norkhushaini Bt Awang, Profesor Madya Dr Kamarularifin Bin Abd Jalil, Ts. Muhammad Azizi Bin Mohd Ariffin, 2021 - 2024, Fundamental Research Grant Scheme (FRGS), Project Member, RM 105,300.00"
     type := "FRGS"
     status := "Active" },
   { id := 7
     title := "Coupled Hybrid Feature Extraction And Classification Of Radar Reflectivity Images For Convective-stratiform Tropical Rainfall Estimates"
     details := "Title : Coupled Hybrid Feature Extraction And Classification Of Radar Reflectivity Images For Convective-stratiform Tropical Rainfall Estimates. Profesor Ts. Dr. Wardah Binti Tahir, Profesor Madya Zaidah Binti Ibrahim, Profesor Madya Ir.ts.dr Jazuri Bin Abdullah, Ir. Dr. Suzana Binti Ramli, Ts. Muhammad Azizi Bin Mohd Ariffin, 2021 - 2024, Fundamental Research Grant Scheme (FRGS), Project Member, RM 137,500.00"
     type := "FRGS"
     status := "Active" }]

/-- `parseResearchGrants`: scan the document; replace an empty result by the
fallback dataset. -/
def parseResearchGrants (doc : GrantsDoc) : List GrantRecord :=
  let researchGrants := grantsScan doc
  if researchGrants.length = 0 then fallbackResearchGrants else researchGrants

/-- A sub-element reached by `element.querySelector`, carrying the two
properties the source reads (`textContent`, `href`). -/
structure SubElement where
  textContent : String
  href : String

/-- A publication-list element: its own `querySelector` (first match or
none), `querySelectorAll`, and `textContent`. -/
structure PubElement where
  query : String → Option SubElement
  queryAll : String → List SubElement
  textContent : String

/-- A publication record as assembled by `parsePublications` /
`loadFallbackPublications`. -/
structure Publication where
  id : Nat
  title : String
  authors : String
  venue : String
  year : String
  citations : String
  link : String
deriving DecidableEq

/-- The ordered selector list tried by `parsePublications`. -/
def scholarSelectors : List String :=
  [".gsc_a_tr", ".gsc_a_t", ".gsc_a_at", "tr[data-rid]", ".gsc_a_tc"]

/-- The title candidate of one element: trimmed text of the title element
when one is found, else the trimmed first line of the element text, else
"Unknown Title". -/
def pubTitleCandidate (el : PubElement) : String :=
  match (el.query (".gsc_a_at") <|> el.query ("a[href*=\"scholar\"]") <|> el.query (".gsc_a_t a")) with
  | some te => trimS te.textContent
  | none =>
    let line0 := trimS ((splitLines el.textContent).headD (""))
    if line0 = "" then "Unknown Title" else line0

/-- The 150-character title truncation of `parsePublications`. -/
def pubTruncTitle (title : String) : String :=
  if 150 < lenS title then takeS title 150 ++ "..." else title

/-- One record of `parsePublications`, built from element `el` at zero-based
position `index`. -/
def publicationRecord (index : Nat) (el : PubElement) : Publication :=
  let titleElement := el.query (".gsc_a_at") <|> el.query ("a[href*=\"scholar\"]") <|> el.query (".gsc_a_t a")
  let authorsElement := el.query (".gs_gray") <|> el.query (".gsc_a_at + .gs_gray")
  let venueElement := el.query (".gs_gray:last-child") <|> (el.queryAll (".gs_gray")).get? 1
  let yearElement := el.query (".gsc_a_y") <|> el.query (".gsc_a_yc")
  let citationsElement := el.query (".gsc_a_c") <|> el.query (".gsc_a_c a")
  let title := pubTitleCandidate el
  { id := index + 1
    title := pubTruncTitle title
    authors := match authorsElement with | some e => trimS e.textContent | none => "Unknown Authors"
    venue := match venueElement with | some e => trimS e.textContent | none => "Unknown Venue"
    year := match yearElement with | some e => trimS e.textContent | none => "Unknown Year"
    citations := match citationsElement with | some e => trimS e.textContent | none => "0"
    link := match titleElement with | some te => te.href | none => "#" }

/-- `Array.from(publicationElements).map((element, index) => ...)`. -/
def publicationsOf (els : List PubElement) : List Publication :=
  els.enum.map (fun p => publicationRecord p.1 p.2)

/-- A parsed Scholar document, modelled as its `querySelectorAll`. -/
def ScholarDoc : Type := String → List PubElement

/-- The pre-fallback result of `parsePublications`: one record per element of
the first selector with a non-empty match. -/
def pubsScan (doc : ScholarDoc) : List Publication :=
  publicationsOf (selectFirst doc scholarSelectors)

/-- `loadFallbackPublications`: the hardcoded 10-record dataset. -/
def fallbackPublications : List Publication :=
  [{ id := 1
     title := "Network traffic profiling using data mining technique in campus environment"
     authors := "M. A. M. Ariffin, R. Ishak, S. A. Ahmad, and Z. Kasiran"
     venue := "International Journal of Advanced Trends in Computer Science and Engineering"
     year := "2020", citations := "15", link := "#" },
   { id := 2
     title := "Data leakage detection in cloud computing platform"
     authors := "M. A. M. Ariffin, K. A. Rahman, M. Y. Darus, N. Awang, and Z. Kasiran"
     venue := "International Journal of Advanced Trends in Computer Science and Engineering"
     year := "2019", citations := "12", link := "#" },
   { id := 3
     title := "API Vulnerabilities In Cloud Computing Platform: Attack And Detection"
     authors := "M. A. M. Ariffin, M. F. Ibrahim and Z. Kasiran"
     venue := "International Journal of Engineering Trends and Technology (IJETT)"
     year := "2020", citations := "8", link := "#" },
   { id := 4
     title := "Multi-level resilience in networked environments: Concepts & principles"
     authors := "M. A. M. Ariffin, A. K. Marnerides, and A. U. Mauthe"
     venue := "2017 14th IEEE Annual Consumer Communications and Networking Conference"
     year := "2017", citations := "25", link := "#" },
   { id := 5
     title := "Automatic Climate Control for Mushroom Cultivation using IoT Approach"
     authors := "Ariffin, M., Ramli, M., Amin, M., Ismail, M., Zainol, Z., Ahmad, N., & Jamil, N."
     venue := "2020 IEEE 10th International Conference on System Engineering and Technology (ICSET)"
     year := "2020", citations := "18", link := "#" },
   { id := 6
     title := "IoT-Based Flash Flood Detection and Alert Using TensorFlow"
     authors := "Rashid, A.A., Ariffin, M.A.M., Kasiran, Z."
     venue := "Proceedings - 2021 11th IEEE International Conference on Control System, Computing and Engineering"
     year := "2021", citations := "10", link := "#" },
   { id := 7
     title := "Local File Inclusion Vulnerability Scanner with Tor Proxy"
     authors := "K. A. H. H. B. C. K. M. Sahidi, M. A. M. Ariffin, M. I. Ramli and Z. Kasiran"
     venue := "2021 IEEE International Conference on Signal and Image Processing Applications (ICSIPA)"
     year := "2021", citations := "5", link := "#" },
   { id := 8
     title := "A Case Study On Digital Divide And Access To Information Communication Technologies (Icts) In Pulau Tuba, Langkawi, Malaysia"
     authors := "Et. al., M."
     venue := "Turkish Journal Of Computer And Mathematics Education (TURCOMAT)"
     year := "2021", citations := "7", link := "#" },
   { id := 9
     title := "Detecting Anomaly in IoT Devices using Multi-Threaded Autonomous Anomaly Detection"
     authors := "MYI Basheer, AM Ali, NHA Hamid, MAM Ariffin, R Osman, S Nordin"
     venue := "2021 4th International Symposium on Agents, Multi-Agent Systems and Robotics"
     year := "2021", citations := "3", link := "#" },
   { id := 10
     title := "Implementation Of Dynamic Honeypot On Raspberry Pi"
     authors := "ADI RIDZAN ADNAN, MUHAMMAD AZIZI BIN MOHD ARIFFIN"
     venue := "i-IDeA 2020 - 5TH INTERNATIONAL INNOVATION, DESIGN & ARTICULATION"
     year := "2021", citations := "2", link := "#" }]

/-- `parsePublications`: scan the document; replace an empty or too-small
(fewer than 5 records) result by the fallback dataset. -/
def parsePublications (doc : ScholarDoc) : List Publication :=
  let publications := pubsScan doc
  if publications.length = 0 ∨ publications.length < 5 then fallbackPublications
  else publications

/-- Outcome of the network fetch: a thrown error (network failure, non-ok
response status, body read failure) or the parsed document. -/
inductive FetchOutcome (α : Type) : Type
  | failure : FetchOutcome α
  | success (doc : α) : FetchOutcome α

/-- `fetchResearchGrants`: on any error load the fallback, otherwise parse. -/
def fetchResearchGrants : FetchOutcome GrantsDoc → List GrantRecord
  | .failure => fallbackResearchGrants
  | .success doc => parseResearchGrants doc

/-- `fetchPublications`: on any error load the fallback, otherwise parse. -/
def fetchPublications : FetchOutcome ScholarDoc → List Publication
  | .failure => fallbackPublications
  | .success doc => parsePublications doc


/-! ## Theorems -/

/-- C5: on the text "KPM, Autonomous Anomaly Detection in Streaming Data,
(Ref: RACER/1/2019/ICT02/UITM//4), Role: Team Member." the grants classifiers
return type "RACER" (RACER outranks the earlier-occurring KPM in the ordered
keyword table) and status "Unknown" (2019 is not in the recent-year set and no
completion or activity keyword occurs). -/
theorem claim_c5_racer_example :
    extractType ("KPM, Autonomous Anomaly Detection in Streaming Data, (Ref: RACER/1/2019/ICT02/UITM//4), Role: Team Member.") = "RACER" ∧
    extractStatus ("KPM, Autonomous Anomaly Detection in Streaming Data, (Ref: RACER/1/2019/ICT02/UITM//4), Role: Team Member.") = "Unknown" := by
  exact ⟨by decide, by decide⟩

/-- C1: when no selector yields a surviving record — for grants, every
selector empty or every candidate of the winning selector discarded; for
publications, every selector empty — the parsers return exactly the fixed
fallback datasets, of length 7 (grants) and 10 (publications). -/
theorem claim_c1_fallback_on_no_survivors (gdoc : GrantsDoc) (pdoc : ScholarDoc)
    (hg : grantsScan gdoc = [])
    (hp : selectFirst pdoc scholarSelectors = []) :
    parseResearchGrants gdoc = fallbackResearchGrants ∧
    fallbackResearchGrants.length = 7 ∧
    parsePublications pdoc = fallbackPublications ∧
    fallbackPublications.length = 10 := by
  refine ⟨?_, rfl, ?_, rfl⟩
  · simp [parseResearchGrants, hg]
  · simp [parsePublications, pubsScan, hp, publicationsOf]

/-- C1 witness: a document whose only matched element is discarded (grants)
and an empty document (publications) both yield the fallback datasets. -/
theorem claim_c1_witness :
    parseResearchGrants (fun s => if s = ".research-item" then ["short"] else []) = fallbackResearchGrants ∧
    fallbackResearchGrants.length = 7 ∧
    parsePublications (fun _ => []) = fallbackPublications ∧
    fallbackPublications.length = 10 :=
  claim_c1_fallback_on_no_survivors _ _ (by decide) rfl

/-- C2: for the publications variant, an extraction yielding between 1 and 4
records is replaced by the 10-element fallback, while 5 or more records are
kept as-is. -/
theorem claim_c2_pubs_small_result_fallback (doc : ScholarDoc) :
    (1 ≤ (pubsScan doc).length → (pubsScan doc).length < 5 →
      parsePublications doc = fallbackPublications) ∧
    (5 ≤ (pubsScan doc).length → parsePublications doc = pubsScan doc) := by
  constructor
  · intro _ h5
    simp [parsePublications, Or.inr h5]
  · intro h5
    have h : ¬((pubsScan doc).length = 0 ∨ (pubsScan doc).length < 5) := by omega
    simp only [parsePublications]
    rw [if_neg h]

/-- C2 witness: a document with 3 matched elements yields the fallback; one
with 5 matched elements keeps its real records. -/
theorem claim_c2_witness :
    parsePublications (fun s => if s = ".gsc_a_tr" then List.replicate 3 (PubElement.mk (fun _ => none) (fun _ => []) ("Paper")) else []) = fallbackPublications ∧
    parsePublications (fun s => if s = ".gsc_a_tr" then List.replicate 5 (PubElement.mk (fun _ => none) (fun _ => []) ("Paper")) else []) =
      pubsScan (fun s => if s = ".gsc_a_tr" then List.replicate 5 (PubElement.mk (fun _ => none) (fun _ => []) ("Paper")) else []) :=
  ⟨(claim_c2_pubs_small_result_fallback _).1 (by decide) (by decide),
   (claim_c2_pubs_small_result_fallback _).2 (by decide)⟩

/-- C9: each fetcher returns the complete fallback dataset on a fetch error,
and on a successful fetch the result is either exactly the fallback dataset
or exactly the records scanned from the live document — never a mixture. -/
theorem claim_c9_all_real_or_all_fallback :
    fetchResearchGrants FetchOutcome.failure = fallbackResearchGrants ∧
    (∀ doc : GrantsDoc,
      fetchResearchGrants (FetchOutcome.success doc) = fallbackResearchGrants ∨
      fetchResearchGrants (FetchOutcome.success doc) = grantsScan doc) ∧
    fetchPublications FetchOutcome.failure = fallbackPublications ∧
    (∀ doc : ScholarDoc,
      fetchPublications (FetchOutcome.success doc) = fallbackPublications ∨
      fetchPublications (FetchOutcome.success doc) = pubsScan doc) := by
  refine ⟨rfl, ?_, rfl, ?_⟩
  · intro doc
    simp only [fetchResearchGrants, parseResearchGrants]
    split
    · exact Or.inl rfl
    · exact Or.inr rfl
  · intro doc
    simp only [fetchPublications, parsePublications]
    split
    · exact Or.inl rfl
    · exact Or.inr rfl

/-- C4: grants status classification is deterministic and case-insensitive,
with "completed" taking precedence over every activity keyword and recent
year; with no completion keyword, an activity keyword or recent-year
substring yields "Active"; with neither, "Unknown". -/
theorem claim_c4_status_precedence (text : String) :
    (includesS (lowerS text) "completed" = true → extractStatus text = "Completed") ∧
    (includesS (lowerS text) "completed" = false →
      ((includesS (lowerS text) "active" || includesS (lowerS text) "ongoing") = true ∨
       (includesS (lowerS text) "2020" || includesS (lowerS text) "2021" ||
        includesS (lowerS text) "2022" || includesS (lowerS text) "2023" ||
        includesS (lowerS text) "2024" || includesS (lowerS text) "2025") = true) →
      extractStatus text = "Active") ∧
    (includesS (lowerS text) "completed" = false →
     includesS (lowerS text) "active" = false →
     includesS (lowerS text) "ongoing" = false →
     includesS (lowerS text) "2020" = false →
     includesS (lowerS text) "2021" = false →
     includesS (lowerS text) "2022" = false →
     includesS (lowerS text) "2023" = false →
     includesS (lowerS text) "2024" = false →
     includesS (lowerS text) "2025" = false →
      extractStatus text = "Unknown") := by
  refine ⟨fun hc => ?_, fun hc h => ?_, fun hc h1 h2 h3 h4 h5 h6 h7 h8 => ?_⟩
  · simp [extractStatus, hc]
  · rcases h with h | h
    · simp [extractStatus, hc, h]
    · by_cases hao : (includesS (lowerS text) "active" || includesS (lowerS text) "ongoing") = true
      · simp [extractStatus, hc, hao]
      · simp [extractStatus, hc, hao, h]
  · simp [extractStatus, hc, h1, h2, h3, h4, h5, h6, h7, h8]

/-- C4 witness: the three classification branches at concrete inputs,
including a "Completed" text that also contains "2024". -/
theorem claim_c4_witness :
    extractStatus ("Project Completed in 2024") = "Completed" ∧
    extractStatus ("ongoing work") = "Active" ∧
    extractStatus ("a mystery") = "Unknown" :=
  ⟨(claim_c4_status_precedence _).1 (by decide),
   (claim_c4_status_precedence _).2.1 (by decide) (Or.inl (by decide)),
   (claim_c4_status_precedence _).2.2 (by decide) (by decide) (by decide) (by decide)
     (by decide) (by decide) (by decide) (by decide) (by decide)⟩

/-- Lengths greater than 10 force a non-empty string. -/
lemma ne_empty_of_ten_lt_lenS {t : String} (h : 10 < lenS t) : t ≠ "" := by
  intro he
  subst he
  exact absurd h (by decide)

/-- The `grantsBody` fold maps `details` to the trimmed texts surviving the
length-and-keyword filter, appended to the accumulator's details. -/
lemma foldl_grantsBody_details (els : List String) (acc : List GrantRecord) :
    (els.foldl grantsBody acc).map GrantRecord.details =
      acc.map GrantRecord.details ++
        (els.map trimS).filter
          (fun t => !(decide (lenS t ≤ 10) || !isResearchGrantText t)) := by
  induction els generalizing acc with
  | nil => simp
  | cons e els ih =>
    simp only [List.foldl_cons, List.map_cons, List.filter_cons]
    show ((els.foldl grantsBody (grantsBody acc e))).map GrantRecord.details = _
    by_cases hb : 10 < lenS (trimS e) ∧ isResearchGrantText (trimS e) = true
    · have hcond : trimS e ≠ "" ∧ 10 < lenS (trimS e) ∧ isResearchGrantText (trimS e) = true :=
        ⟨ne_empty_of_ten_lt_lenS hb.1, hb⟩
      have hg : grantsBody acc e = acc ++ [grantRecordOf (acc.length + 1) (trimS e)] := by
        simp only [grantsBody]
        rw [if_pos hcond]
      have hpred : (!(decide (lenS (trimS e) ≤ 10) || !isResearchGrantText (trimS e))) = true := by
        have hnle : ¬(lenS (trimS e) ≤ 10) := Nat.not_le.mpr hb.1
        simp [hnle, hb.2]
      rw [hg, ih, if_pos hpred]
      simp [grantRecordOf]
    · have hcond : ¬(trimS e ≠ "" ∧ 10 < lenS (trimS e) ∧ isResearchGrantText (trimS e) = true) := by
        intro hc
        exact hb ⟨hc.2.1, hc.2.2⟩
      have hg : grantsBody acc e = acc := by
        simp only [grantsBody]
        rw [if_neg hcond]
      have hpred : ¬((!(decide (lenS (trimS e) ≤ 10) || !isResearchGrantText (trimS e))) = true) := by
        by_contra hcon
        simp only [not_not, Bool.not_eq_true', Bool.or_eq_false_iff] at hcon
        rcases hcon with ⟨hlen, hkw⟩
        exact hb ⟨Nat.not_le.mp (of_decide_eq_false hlen), by simpa using hkw⟩
      rw [hg, ih, if_neg hpred]

/-- C8: for the grants variant, the candidates are the trimmed element texts;
a candidate is discarded exactly when its length is at most 10 or no
configured keyword occurs in it case-insensitively; each survivor yields
exactly one record, carrying the candidate as its `details`. -/
theorem claim_c8_grants_filter (els : List String) :
    (grantsScanElems els).map GrantRecord.details =
      (els.map trimS).filter
        (fun t => !(decide (lenS t ≤ 10) || !isResearchGrantText t)) := by
  simpa using foldl_grantsBody_details els []

/-- The `grantsBody` fold keeps ids contiguous from 1 when the accumulator's
ids already are. -/
lemma foldl_grantsBody_ids (els : List String) (acc : List GrantRecord)
    (h : acc.map GrantRecord.id = List.range' 1 acc.length) :
    (els.foldl grantsBody acc).map GrantRecord.id =
      List.range' 1 (els.foldl grantsBody acc).length := by
  induction els generalizing acc with
  | nil => exact h
  | cons e els ih =>
    simp only [List.foldl_cons]
    by_cases hcond : trimS e ≠ "" ∧ 10 < lenS (trimS e) ∧ isResearchGrantText (trimS e) = true
    · have hg : grantsBody acc e = acc ++ [grantRecordOf (acc.length + 1) (trimS e)] := by
        simp only [grantsBody]
        rw [if_pos hcond]
      rw [hg]
      refine ih _ ?_
      rw [List.map_append, h, List.length_append]
      simp [grantRecordOf, List.range'_concat, Nat.add_comm]
    · have hg : grantsBody acc e = acc := by
        simp only [grantsBody]
        rw [if_neg hcond]
      rw [hg]
      exact ih _ h
/-- The enumerated publication records carry ids 1, 2, ... in element order. -/
lemma publicationsOf_ids (els : List PubElement) :
    (publicationsOf els).map Publication.id = List.range' 1 els.length := by
  unfold publicationsOf
  rw [List.map_map]
  rw [show (Publication.id ∘ fun p : Nat × PubElement => publicationRecord p.1 p.2)
      = (fun n : Nat => n + 1) ∘ Prod.fst from rfl]
  rw [← List.map_map, List.enum_map_fst, List.range'_eq_map_range]
  simp [Nat.add_comm]

/-- One record per element: the scan's length is the element count. -/
lemma publicationsOf_length (els : List PubElement) :
    (publicationsOf els).length = els.length := by
  simp [publicationsOf, List.enum_length]

/-- C6: for both variants, the output ids are the contiguous integers
1, 2, ..., n in extraction order — both on live extractions and on the
fallback datasets. -/
theorem claim_c6_ids_contiguous (gdoc : GrantsDoc) (pdoc : ScholarDoc) :
    (parseResearchGrants gdoc).map GrantRecord.id =
      List.range' 1 (parseResearchGrants gdoc).length ∧
    (parsePublications pdoc).map Publication.id =
      List.range' 1 (parsePublications pdoc).length := by
  constructor
  · simp only [parseResearchGrants]
    split
    · decide
    · exact foldl_grantsBody_ids _ [] (by simp)
  · simp only [parsePublications]
    split
    · decide
    · rw [show pubsScan pdoc = publicationsOf (selectFirst pdoc scholarSelectors) from rfl,
        publicationsOf_ids, publicationsOf_length]

/-- A selector list whose members before `s` all match nothing resolves to
`s`'s element set when `s` matches something. -/
lemma selectFirst_eq {α : Type} (doc : String → List α) (pre : List String)
    (s : String) (post : List String)
    (hpre : ∀ t ∈ pre, doc t = []) (hs : doc s ≠ []) :
    selectFirst doc (pre ++ s :: post) = doc s := by
  induction pre with
  | nil =>
    simp only [List.nil_append, selectFirst]
    rw [if_pos (List.length_pos.mpr hs)]
  | cons t pre ih =>
    simp only [List.cons_append, selectFirst]
    rw [hpre t (by simp)]
    simp only [List.length_nil, Nat.lt_irrefl, if_false]
    exact ih (fun u hu => hpre u (by simp [hu]))

/-- C7: the first selector (in configured order) matching at least one
element is used exclusively: the scanned records are computed from exactly
that selector's element set, never merging later selectors — even when all
of its elements are later discarded. -/
theorem claim_c7_first_selector_exclusive
    (gdoc : GrantsDoc) (gpre : List String) (gs : String) (gpost : List String)
    (hg : possibleSelectors = gpre ++ gs :: gpost)
    (hgpre : ∀ t ∈ gpre, gdoc t = []) (hgs : gdoc gs ≠ [])
    (pdoc : ScholarDoc) (ppre : List String) (ps : String) (ppost : List String)
    (hp : scholarSelectors = ppre ++ ps :: ppost)
    (hppre : ∀ t ∈ ppre, pdoc t = []) (hps : pdoc ps ≠ []) :
    grantsScan gdoc = grantsScanElems (gdoc gs) ∧
    pubsScan pdoc = publicationsOf (pdoc ps) := by
  constructor
  · unfold grantsScan
    rw [hg, selectFirst_eq gdoc gpre gs gpost hgpre hgs]
  · unfold pubsScan
    rw [hp, selectFirst_eq pdoc ppre ps ppost hppre hps]

/-- C7 witness: a grants document whose first matching selector yields only a
discarded element (so the scan is empty rather than merged from the richer
later selector), and a publications document matched by its second selector. -/
theorem claim_c7_witness :
    grantsScan (fun s => if s = ".research-item" then ["tiny"]
        else if s = "table tr" then ["Completed FRGS research grant on streaming data analysis"] else []) =
      grantsScanElems ["tiny"] ∧
    pubsScan (fun s => if s = ".gsc_a_t" then [PubElement.mk (fun _ => none) (fun _ => []) ("Paper")] else []) =
      publicationsOf [PubElement.mk (fun _ => none) (fun _ => []) ("Paper")] := by
  refine claim_c7_first_selector_exclusive _ [] ".research-item"
      [".grant-item", "table tr", ".list-item", ".research-list li"] rfl
      (by intro t ht; simp at ht) (by decide)
      _ [".gsc_a_tr"] ".gsc_a_t" [".gsc_a_at", "tr[data-rid]", ".gsc_a_tc"] rfl
      (fun t ht => ?_) (by simp)
  · have : t = ".gsc_a_tr" := by simpa using ht
    subst this
    rfl

/-- Dropping a leading block never lengthens the list. -/
lemma length_dropWhile_le (p : Char → Bool) (l : List Char) :
    (l.dropWhile p).length ≤ l.length := by
  induction l with
  | nil => simp
  | cons a l ih =>
    by_cases h : p a = true
    · rw [List.dropWhile_cons_of_pos h]
      exact Nat.le_trans ih (Nat.le_succ _)
    · rw [List.dropWhile_cons_of_neg h]

/-- Trimming never lengthens the list. -/
lemma length_trimChars_le (l : List Char) : (trimChars l).length ≤ l.length := by
  unfold trimChars
  rw [List.length_reverse]
  calc ((l.dropWhile Char.isWhitespace).reverse.dropWhile Char.isWhitespace).length
      ≤ (l.dropWhile Char.isWhitespace).reverse.length :=
        length_dropWhile_le _ _
    _ = (l.dropWhile Char.isWhitespace).length := List.length_reverse _
    _ ≤ l.length := length_dropWhile_le _ _

/-- A trim fixpoint starts with a non-whitespace character. -/
lemma head_not_ws_of_trimChars_fix {c : Char} {l : List Char}
    (h : trimChars (c :: l) = c :: l) : c.isWhitespace = false := by
  by_contra hws
  have hws' : c.isWhitespace = true := by
    cases hc : c.isWhitespace
    · exact absurd hc hws
    · rfl
  have hlen : (trimChars (c :: l)).length ≤ l.length := by
    unfold trimChars
    rw [List.length_reverse, List.dropWhile_cons_of_pos hws']
    calc ((l.dropWhile Char.isWhitespace).reverse.dropWhile Char.isWhitespace).length
        ≤ (l.dropWhile Char.isWhitespace).reverse.length := length_dropWhile_le _ _
      _ = (l.dropWhile Char.isWhitespace).length := List.length_reverse _
      _ ≤ l.length := length_dropWhile_le _ _
  rw [h] at hlen
  simp at hlen

/-- Non-whitespace members survive `dropWhile isWhitespace`. -/
lemma mem_dropWhile_of_not_ws {c : Char} {l : List Char}
    (hm : c ∈ l) (hc : c.isWhitespace = false) :
    c ∈ l.dropWhile Char.isWhitespace := by
  induction l with
  | nil => cases hm
  | cons a l ih =>
    by_cases ha : a.isWhitespace = true
    · rw [List.dropWhile_cons_of_pos ha]
      rcases List.mem_cons.mp hm with rfl | hm'
      · rw [ha] at hc
        cases hc
      · exact ih hm'
    · rw [List.dropWhile_cons_of_neg ha]
      exact hm

/-- A list holding a non-whitespace character has a non-empty trim. -/
lemma trimChars_ne_nil_of_mem {c : Char} {l : List Char}
    (hm : c ∈ l) (hc : c.isWhitespace = false) : trimChars l ≠ [] := by
  intro hnil
  unfold trimChars at hnil
  rw [List.reverse_eq_nil_iff] at hnil
  have h1 : c ∈ l.dropWhile Char.isWhitespace := mem_dropWhile_of_not_ws hm hc
  have h2 : c ∈ (l.dropWhile Char.isWhitespace).reverse := List.mem_reverse.mpr h1
  have := List.dropWhile_eq_nil_iff.mp hnil c h2
  rw [this] at hc
  cases hc

/-- `splitNl` always produces at least one piece. -/
lemma splitNl_ne_nil (l : List Char) : splitNl l ≠ [] := by
  match l with
  | [] => simp [splitNl]
  | c :: rest =>
    simp only [splitNl]
    split
    · simp
    · split <;> simp

/-- A line not starting with a newline keeps its head as the head of the
first split piece. -/
lemma splitNl_cons_of_ne {c : Char} (l : List Char) (h : ¬(c = '\n')) :
    ∃ h0 t, splitNl l = h0 :: t ∧ splitNl (c :: l) = (c :: h0) :: t := by
  obtain ⟨h0, t, he⟩ := List.exists_cons_of_ne_nil (splitNl_ne_nil l)
  refine ⟨h0, t, he, ?_⟩
  simp only [splitNl, if_neg h, he]

/-- C10: a text that is already trimmed and longer than 10 characters (the
grants-filter precondition) always has a non-empty line, so `extractTitle`
takes its first-line branch; the whole-text fallback return is unreachable
under the precondition. -/
theorem claim_c10_first_line_branch (text : String)
    (h1 : trimS text = text) (h2 : 10 < lenS text) :
    nonemptyLines text ≠ [] ∧
    ∃ line0 rest, nonemptyLines text = line0 :: rest ∧
      extractTitle text =
        takeS (trimS line0) 100 ++ (if 100 < lenS line0 then "..." else "") := by
  have h1' : trimChars text.toList = text.toList := congrArg String.toList h1
  have hne : text.toList ≠ [] := by
    intro hnil
    have hz : lenS text = 0 := by
      unfold lenS
      rw [hnil]
      rfl
    omega
  obtain ⟨c, l, hc⟩ := List.exists_cons_of_ne_nil hne
  rw [hc] at h1'
  have hcws : c.isWhitespace = false := head_not_ws_of_trimChars_fix h1'
  have hcnl : ¬(c = '\n') := by
    intro heq
    rw [heq] at hcws
    exact absurd hcws (by decide)
  obtain ⟨h0, t, _, hsplitc⟩ := splitNl_cons_of_ne l hcnl
  have hlines : splitLines text = (c :: h0).asString :: t.map List.asString := by
    unfold splitLines
    rw [hc, hsplitc, List.map_cons]
  have htrim_ne : trimChars (c :: h0) ≠ [] :=
    trimChars_ne_nil_of_mem (List.mem_cons_self c h0) hcws
  have hpos : 0 < lenS (trimS ((c :: h0).asString)) := by
    have he : lenS (trimS ((c :: h0).asString)) = (trimChars (c :: h0)).length := rfl
    rw [he]
    exact List.length_pos.mpr htrim_ne
  have hnel : nonemptyLines text =
      (c :: h0).asString ::
        (t.map List.asString).filter (fun line => 0 < lenS (trimS line)) := by
    unfold nonemptyLines
    rw [hlines]
    exact List.filter_cons_of_pos (decide_eq_true hpos)
  refine ⟨by rw [hnel]; simp, (c :: h0).asString, _, hnel, ?_⟩
  unfold extractTitle
  rw [hnel]

/-- C3 counterexample: a candidate text whose first non-empty line is 101
characters long (50 letters, then 51 spaces).  The produced title is the
trimmed line cut at 100 — i.e. just the 50 letters — with the marker
appended, not the line cut to exactly 100 characters as claimed. -/
theorem claim_c3_counterexample :
    nonemptyLines (((List.replicate 50 'a' ++ List.replicate 51 ' ').asString) ++ "\nresearch grant data")
      = [(List.replicate 50 'a' ++ List.replicate 51 ' ').asString, "research grant data"] ∧
    100 < lenS ((List.replicate 50 'a' ++ List.replicate 51 ' ').asString) ∧
    extractTitle (((List.replicate 50 'a' ++ List.replicate 51 ' ').asString) ++ "\nresearch grant data")
      = (List.replicate 50 'a').asString ++ "..." ∧
    extractTitle (((List.replicate 50 'a' ++ List.replicate 51 ' ').asString) ++ "\nresearch grant data")
      ≠ takeS ((List.replicate 50 'a' ++ List.replicate 51 ' ').asString) 100 ++ "..." := by
  refine ⟨by decide, by decide, by decide, by decide⟩

/-- C3 amended: the grants title is the TRIMMED first non-empty line cut at
100 characters, with the marker appended exactly when the untrimmed line
exceeds 100 characters (for lines without surrounding whitespace this is the
claimed behaviour); the publications title truncation applies to the derived
title candidate: over 150 characters it is cut to 150 with the marker, at or
under 150 it is returned unchanged. -/
theorem claim_c3_title_truncation (text line0 : String) (rest : List String)
    (h : nonemptyLines text = line0 :: rest) :
    extractTitle text =
      takeS (trimS line0) 100 ++ (if 100 < lenS line0 then "..." else "") ∧
    (lenS line0 ≤ 100 → extractTitle text = trimS line0) ∧
    (∀ i el, (publicationRecord i el).title = pubTruncTitle (pubTitleCandidate el)) ∧
    (∀ title : String, 150 < lenS title → pubTruncTitle title = takeS title 150 ++ "...") ∧
    (∀ title : String, lenS title ≤ 150 → pubTruncTitle title = title) := by
  have hmain : extractTitle text =
      takeS (trimS line0) 100 ++ (if 100 < lenS line0 then "..." else "") := by
    unfold extractTitle
    rw [h]
  refine ⟨hmain, ?_, fun i el => rfl, fun t ht => ?_, fun t ht => ?_⟩
  · intro hle
    rw [hmain, if_neg (Nat.not_lt.mpr hle)]
    have hlen : (trimChars line0.toList).length ≤ 100 :=
      le_trans (length_trimChars_le _) hle
    have htake : takeS (trimS line0) 100 = trimS line0 := by
      show ((trimChars line0.toList).take 100).asString = trimS line0
      rw [List.take_of_length_le hlen]
      rfl
    rw [htake]
    simp
  · unfold pubTruncTitle
    rw [if_pos ht]
  · unfold pubTruncTitle
    rw [if_neg (Nat.not_lt.mpr ht)]

/-- C3 witness for the amended statement: on the text "ab \ncd" the first
non-empty line is "ab " (3 characters, under the limit) and the title is its
trim "ab". -/
theorem claim_c3_witness :
    extractTitle ("ab \ncd") =
      takeS (trimS ("ab ")) 100 ++ (if 100 < lenS ("ab ") then "..." else "") ∧
    extractTitle ("ab \ncd") = trimS ("ab ") :=
  ⟨(claim_c3_title_truncation ("ab \ncd") ("ab ") ["cd"] (by decide)).1,
   (claim_c3_title_truncation ("ab \ncd") ("ab ") ["cd"] (by decide)).2.1 (by decide)⟩

/-- C10 witness: the already-trimmed 14-character text "hello research" has a
non-empty line and its title comes from the first-line branch. -/
theorem claim_c10_witness :
    nonemptyLines ("hello research") ≠ [] ∧
    ∃ line0 rest, nonemptyLines ("hello research") = line0 :: rest ∧
      extractTitle ("hello research") =
        takeS (trimS line0) 100 ++ (if 100 < lenS line0 then "..." else "") :=
  claim_c10_first_line_branch ("hello research") (by decide) (by decide)
